import Mathlib

/-!
Verification of the recording session controller of the getademo repository.

The development shallowly embeds the Python sources:
- `src/recorder/backends/host.py` — capture geometry (screen selection,
  crop rectangle, platform capture arguments);
- `src/recorder/server.py` — the monolithic session controller
  (`start_recording`, `stop_recording`, `recording_status`) whose module-level
  globals form the session state;
- `src/recorder/tools/recording.py` — the orphan reaper and the tool-layer
  `start_recording` wrapper.

Machine integers are modelled as `Int`/`Nat` (Python integers are unbounded);
external effects (window lookup, `stat`, process polling, spawning) are
explicit inputs; subprocess handles are modelled by their `poll()` result.
String formatting of human-readable report messages that mixes in float
rendering is elided where noted; everything the claims depend on is kept.
-/

namespace Getademo

/-- `WindowBounds` from `src/recorder/core/types.py`: window position and
size in logical coordinates. -/
structure WindowBounds where
  x : Int
  y : Int
  width : Int
  height : Int
deriving Repr, DecidableEq

/-- One entry of the screen list produced by
`HostBackend._get_macos_screens` (`src/recorder/backends/host.py`):
1-based index, origin, logical size and backing scale factor. -/
structure Screen where
  index : Nat
  x : Int
  y : Int
  width : Int
  height : Int
  scale : Int
deriving Repr, DecidableEq

/-- Result of `HostBackend._find_screen_for_window`:
`(screen_index, relative_x, relative_y, scale_factor)`. -/
structure ScreenPlacement where
  screenIndex : Nat
  cropX : Int
  cropY : Int
  scale : Int
deriving Repr, DecidableEq

/-- Rectangular overlap area between a window and a screen, as computed
inside the loop of `_find_screen_for_window` (host.py lines 220-231):
positive product of the overlap extents when both are positive, else 0. -/
def overlapArea (b : WindowBounds) (s : Screen) : Int :=
  let overlapLeft := max b.x s.x
  let overlapRight := min (b.x + b.width) (s.x + s.width)
  let overlapTop := max b.y s.y
  let overlapBottom := min (b.y + b.height) (s.y + s.height)
  if overlapRight > overlapLeft ∧ overlapBottom > overlapTop then
    (overlapRight - overlapLeft) * (overlapBottom - overlapTop)
  else 0

/-- The `for screen in screens` loop of `_find_screen_for_window`
(host.py lines 217-231): tracks `(best_screen, best_overlap)`, starting from
`(None, 0)`, updating when the overlap is positive and strictly exceeds the
best seen so far. -/
def findBestScreen (b : WindowBounds) : List Screen → Option Screen × Int → Option Screen × Int
  | [], acc => acc
  | s :: rest, acc =>
    let overlapLeft := max b.x s.x
    let overlapRight := min (b.x + b.width) (s.x + s.width)
    let overlapTop := max b.y s.y
    let overlapBottom := min (b.y + b.height) (s.y + s.height)
    let acc' :=
      if overlapRight > overlapLeft ∧ overlapBottom > overlapTop then
        let overlapAreaHere := (overlapRight - overlapLeft) * (overlapBottom - overlapTop)
        if overlapAreaHere > acc.2 then (some s, overlapAreaHere) else acc
      else acc
    findBestScreen b rest acc'

/-- `HostBackend._find_screen_for_window` (host.py lines 210-246): pick the
screen with maximal overlap, return its index with the window origin made
relative to the screen and clamped to be nonnegative, together with the
screen's scale factor (`screen.get("scale", 2)`; every screen produced by
`_get_macos_screens` carries a scale).  With no overlapping screen, default
to screen 1, origin clamped to be nonnegative, scale 2. -/
def findScreenForWindow (b : WindowBounds) (screens : List Screen) : ScreenPlacement :=
  match findBestScreen b screens (none, 0) with
  | (some s, _) => ⟨s.index, max 0 (b.x - s.x), max 0 (b.y - s.y), s.scale⟩
  | (none, _) => ⟨1, max 0 b.x, max 0 b.y, 2⟩

/-- Invariant of the best-screen loop: the accumulator either holds nothing
and every visited screen has no positive overlap, or holds a visited screen
whose (positive) overlap area dominates every visited screen. -/
def BestInv (b : WindowBounds) (visited : List Screen) : Option Screen × Int → Prop
  | (none, a) => a = 0 ∧ ∀ s ∈ visited, overlapArea b s ≤ 0
  | (some s, a) =>
      a = overlapArea b s ∧ 0 < a ∧ s ∈ visited ∧ ∀ t ∈ visited, overlapArea b t ≤ a

/-- One iteration of the best-screen loop, factored out of `findBestScreen`
for the invariant proof. -/
def bestStep (b : WindowBounds) (s : Screen) (acc : Option Screen × Int) :
    Option Screen × Int :=
  if min (b.x + b.width) (s.x + s.width) > max b.x s.x ∧
     min (b.y + b.height) (s.y + s.height) > max b.y s.y then
    if (min (b.x + b.width) (s.x + s.width) - max b.x s.x) *
       (min (b.y + b.height) (s.y + s.height) - max b.y s.y) > acc.2 then
      (some s, (min (b.x + b.width) (s.x + s.width) - max b.x s.x) *
        (min (b.y + b.height) (s.y + s.height) - max b.y s.y))
    else acc
  else acc

theorem findBestScreen_cons (b : WindowBounds) (s : Screen) (rest : List Screen)
    (acc : Option Screen × Int) :
    findBestScreen b (s :: rest) acc = findBestScreen b rest (bestStep b s acc) := rfl

theorem bestStep_inv (b : WindowBounds) (s : Screen) (visited : List Screen)
    (acc : Option Screen × Int) (h : BestInv b visited acc) :
    BestInv b (visited ++ [s]) (bestStep b s acc) := by
  by_cases h2 : min (b.x + b.width) (s.x + s.width) > max b.x s.x ∧
      min (b.y + b.height) (s.y + s.height) > max b.y s.y
  · have harea : overlapArea b s =
        (min (b.x + b.width) (s.x + s.width) - max b.x s.x) *
        (min (b.y + b.height) (s.y + s.height) - max b.y s.y) := by
      simp only [overlapArea]
      rw [if_pos h2]
    have hpos : 0 < (min (b.x + b.width) (s.x + s.width) - max b.x s.x) *
        (min (b.y + b.height) (s.y + s.height) - max b.y s.y) :=
      mul_pos (by omega) (by omega)
    rw [bestStep, if_pos h2]
    by_cases h3 : (min (b.x + b.width) (s.x + s.width) - max b.x s.x) *
        (min (b.y + b.height) (s.y + s.height) - max b.y s.y) > acc.2
    · rw [if_pos h3]
      refine ⟨harea.symm, hpos, by simp, ?_⟩
      intro t ht
      rcases List.mem_append.mp ht with htv | hts
      · match acc, h with
        | (none, a), ⟨ha, hall⟩ =>
          have := hall t htv; simp only at h3 ⊢; omega
        | (some u, a), ⟨ha, hapos, humem, hall⟩ =>
          have := hall t htv; simp only at h3 ⊢; omega
      · have : t = s := by simpa using hts
        subst this; omega
    · rw [if_neg h3]
      match acc, h with
      | (none, a), ⟨ha, hall⟩ =>
        subst ha
        refine ⟨rfl, ?_⟩
        intro t ht
        rcases List.mem_append.mp ht with htv | hts
        · exact hall t htv
        · have : t = s := by simpa using hts
          subst this; simp only at h3 ⊢; omega
      | (some u, a), ⟨ha, hapos, humem, hall⟩ =>
        refine ⟨ha, hapos, List.mem_append_left _ humem, ?_⟩
        intro t ht
        rcases List.mem_append.mp ht with htv | hts
        · exact hall t htv
        · have : t = s := by simpa using hts
          subst this; simp only at h3 ⊢; omega
  · rw [bestStep, if_neg h2]
    have hzero : overlapArea b s = 0 := by
      simp only [overlapArea]
      rw [if_neg h2]
    match acc, h with
    | (none, a), ⟨ha, hall⟩ =>
      subst ha
      refine ⟨rfl, ?_⟩
      intro t ht
      rcases List.mem_append.mp ht with htv | hts
      · exact hall t htv
      · have : t = s := by simpa using hts
        subst this; omega
    | (some u, a), ⟨ha, hapos, humem, hall⟩ =>
      refine ⟨ha, hapos, List.mem_append_left _ humem, ?_⟩
      intro t ht
      rcases List.mem_append.mp ht with htv | hts
      · exact hall t htv
      · have : t = s := by simpa using hts
        subst this; omega

theorem findBestScreen_inv (b : WindowBounds) (rest : List Screen) :
    ∀ (visited : List Screen) (acc : Option Screen × Int), BestInv b visited acc →
      BestInv b (visited ++ rest) (findBestScreen b rest acc) := by
  induction rest with
  | nil => intro visited acc h; simpa [findBestScreen] using h
  | cons s rest ih =>
    intro visited acc h
    rw [findBestScreen_cons]
    have := ih (visited ++ [s]) _ (bestStep_inv b s visited acc h)
    simpa [List.append_assoc] using this

/-- The crop rectangle `(width, height, crop_x_final, crop_y_final)` computed
by `HostBackend._get_macos_capture_args` (host.py lines 137-148): the bounds
and the relative crop origin are multiplied by the scale factor; an odd
scaled size is decremented and an odd scaled origin is incremented to make
every component even. -/
def macosCropRect (b : WindowBounds) (screens : List Screen) : Int × Int × Int × Int :=
  let p := findScreenForWindow b screens
  let scaledWidth := b.width * p.scale
  let scaledHeight := b.height * p.scale
  let scaledCropX := p.cropX * p.scale
  let scaledCropY := p.cropY * p.scale
  let width := if scaledWidth % 2 = 0 then scaledWidth else scaledWidth - 1
  let height := if scaledHeight % 2 = 0 then scaledHeight else scaledHeight - 1
  let cropXFinal := if scaledCropX % 2 = 0 then scaledCropX else scaledCropX + 1
  let cropYFinal := if scaledCropY % 2 = 0 then scaledCropY else scaledCropY + 1
  (width, height, cropXFinal, cropYFinal)

/-- ffmpeg argument list and crop filter returned by
`HostBackend._get_macos_capture_args` (host.py lines 150-156). -/
def macosCaptureArgs (b : WindowBounds) (screens : List Screen) (fps : Int) :
    List String × String :=
  let p := findScreenForWindow b screens
  let c := macosCropRect b screens
  (["-f", "avfoundation",
    "-capture_cursor", "1",
    "-framerate", toString fps,
    "-pixel_format", "uyvy422",
    "-i", toString p.screenIndex ++ ":none"],
   "crop=" ++ toString c.1 ++ ":" ++ toString c.2.1 ++ ":" ++
     toString c.2.2.1 ++ ":" ++ toString c.2.2.2)

/-- Capture size `(width, height)` used by
`HostBackend._get_linux_capture_args` (host.py lines 273-274): an odd window
dimension is incremented to the next even number. -/
def linuxVideoSize (b : WindowBounds) : Int × Int :=
  (if b.width % 2 = 0 then b.width else b.width + 1,
   if b.height % 2 = 0 then b.height else b.height + 1)

/-- ffmpeg argument list returned by `HostBackend._get_linux_capture_args`
(host.py lines 276-281); the capture origin `bounds.x, bounds.y` is passed
through into the `-i` argument without any adjustment. -/
def hostLinuxCaptureArgs (b : WindowBounds) (display : String) (fps : Int) :
    List String :=
  let sz := linuxVideoSize b
  ["-f", "x11grab",
   "-video_size", toString sz.1 ++ "x" ++ toString sz.2,
   "-framerate", toString fps,
   "-i", display ++ "+" ++ toString b.x ++ "," ++ toString b.y]

/-! ## Session controller (`src/recorder/server.py`)

The module-level globals `_recording_process`, `_recording_path`,
`_recording_start_time`, `_recording_log_file`, `_recording_last_size` form
the controller state.  A subprocess handle is modelled by its `poll()`
result: `none` while the process is running, `some code` once it exited. -/

/-- A capture subprocess handle, characterised by its `poll()` result. -/
structure Proc where
  exitCode : Option Int
deriving Repr, DecidableEq

/-- The controller state held in the module-level globals of
`src/recorder/server.py` (lines 81-85). -/
structure RecState where
  process : Option Proc
  outputPath : Option String
  startTime : Option Nat
  logFile : Option Nat
  lastSize : Nat
deriving Repr, DecidableEq

/-- The guard condition of `start_recording` (server.py line 306):
`_recording_process is not None and _recording_process.poll() is None`. -/
def activeRec (st : RecState) : Bool :=
  match st.process with
  | some p => p.exitCode = none
  | none => false

/-- External inputs consumed by one `start_recording` call: environment
detection, window auto-detection, the window query results, and the handle
of the spawned process as observed by the post-spawn grace-period poll. -/
structure StartEnv where
  isContainer : Bool
  detectedWindow : Option String
  windowIdFound : Bool
  bounds : Option WindowBounds
  display : String
  outPath : String
  logHandle : Nat
  spawnedProc : Proc
  startTime : Nat
deriving Repr, DecidableEq

/-- The Linux branch of `get_window_capture_args` (server.py lines 257-284),
the branch taken inside a container: even-up the window size, zero a capture
origin component that is within 50 px of the display origin, and build the
x11grab input arguments.  Note the returned list carries no framerate flag.
Errors stand for the window-not-found and bounds-exception returns. -/
def getWindowCaptureArgsLinux (env : StartEnv) : Except String (List String) :=
  if !env.windowIdFound then
    .error ("Window not found. Use list_windows to see available windows.")
  else
    match env.bounds with
    | none => .error ("Could not get window bounds")
    | some b =>
      let width := if b.width % 2 = 0 then b.width else b.width + 1
      let height := if b.height % 2 = 0 then b.height else b.height + 1
      let x := if b.x < 50 then 0 else b.x
      let y := if b.y < 50 then 0 else b.y
      .ok ["-f", "x11grab",
           "-video_size", toString width ++ "x" ++ toString height,
           "-i", env.display ++ ".0+" ++ toString x ++ "," ++ toString y]

/-- The ffmpeg command assembled by `start_recording`
(server.py lines 377-392). -/
def buildRecordCmd (captureArgs : List String) (videoFilters : List String)
    (outPath : String) : List String :=
  (["ffmpeg", "-y"] ++ captureArgs)
    ++ (if videoFilters.isEmpty then [] else ["-vf", String.intercalate (",") videoFilters])
    ++ ["-c:v", "libx264",
        "-preset", "ultrafast",
        "-crf", "23",
        "-pix_fmt", "yuv420p",
        "-movflags", "frag_keyframe+empty_moov",
        outPath]

/-- `start_recording` (server.py lines 302-457).  Returns the reply message
(its dynamic formatting elided), the new controller state, and the command
of the spawned subprocess (`none` when `subprocess.Popen` was never called).
Outside a container no browser window is auto-detected (the auto-detection
loop at lines 322-330 only runs when `is_container_environment()` holds and
the function takes no window argument), so every successful spawn goes
through the container/Linux capture path.  On that path `crop_filter` is
`None` and the scale filter is only appended outside containers, so
`video_filters` is empty. -/
def startRecording (st : RecState) (env : StartEnv) :
    String × RecState × Option (List String) :=
  if activeRec st then
    ("Recording already in progress. Stop it first.", st, none)
  else
    let windowTitle := if env.isContainer then env.detectedWindow else none
    match windowTitle with
    | none => ("ERROR: Could not auto-detect browser window.", st, none)
    | some _ =>
      match getWindowCaptureArgsLinux env with
      | .error e => ("Window capture error: " ++ e, st, none)
      | .ok captureArgs =>
        let cmd := buildRecordCmd captureArgs [] env.outPath
        let spawned : RecState :=
          { process := some env.spawnedProc
            outputPath := some env.outPath
            startTime := some env.startTime
            logFile := some env.logHandle
            lastSize := 0 }
        if env.spawnedProc.exitCode ≠ none then
          ("Recording failed to start!",
           { spawned with process := none, outputPath := none,
                          startTime := none, logFile := none },
           some cmd)
        else
          ("Recording started!", spawned, some cmd)

/-- The four rungs of the shutdown ladder in `stop_recording`
(server.py lines 477-522). -/
inductive Rung where
  | quitStdin
  | sigint
  | sigterm
  | kill
deriving Repr, DecidableEq

/-- The full escalation order. -/
def shutdownLadder : List Rung := [.quitStdin, .sigint, .sigterm, .kill]

/-- Poll-loop bound of each rung, in 0.1 s ticks: 30 after the stdin quit,
20 after SIGINT, 20 after SIGTERM, a single 0.5 s sleep after the kill. -/
def rungWaitTicks : Rung → Nat
  | .quitStdin => 30
  | .sigint => 20
  | .sigterm => 20
  | .kill => 5

/-- The escalation logic of `stop_recording`: `dead l` tells whether any
poll during the bounded wait that follows the last rung of `l` observed the
process dead (the `stopped` flag).  Each rung after the first is issued only
when the flag is still unset. -/
def stopLadder (dead : List Rung → Bool) : List Rung :=
  if dead [.quitStdin] then [.quitStdin]
  else if dead [.quitStdin, .sigint] then [.quitStdin, .sigint]
  else if dead [.quitStdin, .sigint, .sigterm] then [.quitStdin, .sigint, .sigterm]
  else [.quitStdin, .sigint, .sigterm, .kill]

/-- `stop_recording` (server.py lines 461-563): no-op replies when no
process handle is held or the process already exited (both without touching
the state), otherwise the escalation ladder runs, the log is closed and
every session field is reset.  Returns the reply message (dynamic
formatting elided), the new state, and the rungs issued. -/
def stopRecording (st : RecState) (dead : List Rung → Bool) :
    String × RecState × List Rung :=
  match st.process with
  | none => ("No recording in progress.", st, [])
  | some p =>
    if p.exitCode ≠ none then ("Recording already stopped.", st, [])
    else
      ("Recording stopped!",
       { process := none, outputPath := none, startTime := none,
         logFile := none, lastSize := 0 },
       stopLadder dead)

/-- Structured content of the `recording_status` reply. -/
inductive StatusReport where
  | noRecording
  | recording (growing : Bool) (sizeBytes : Nat)
deriving Repr, DecidableEq

/-- `recording_status` (server.py lines 567-599).  `statSize` is the result
of statting the output file (`none` covers a missing path, a missing file
and a raised exception, in which case `current_size` stays 0, the growth
flag stays `True` and `_recording_last_size` is not updated).  The health
flag is cleared only when the last recorded size was positive and the
current size did not exceed it; the observed size is then stored back into
`_recording_last_size`. -/
def recordingStatus (st : RecState) (statSize : Option Nat) :
    StatusReport × RecState :=
  match st.process with
  | none => (.noRecording, st)
  | some p =>
    if p.exitCode ≠ none then (.noRecording, st)
    else
      match statSize with
      | none => (.recording true 0, st)
      | some cur =>
        let growing := if 0 < st.lastSize ∧ cur ≤ st.lastSize then false else true
        (.recording growing cur, { st with lastSize := cur })

/-! ## Orphan reaper and tool layer (`src/recorder/tools/recording.py`) -/

/-- `startsWithChars needle hay` is true when `needle` occurs at the head
of `hay`. -/
def startsWithChars : List Char → List Char → Bool
  | [], _ => true
  | _ :: _, [] => false
  | a :: as, c :: cs => a == c && startsWithChars as cs

/-- Python's substring test `needle in hay` over character lists. -/
def containsSub (needle : List Char) : List Char → Bool
  | [] => needle.isEmpty
  | c :: rest => startsWithChars needle (c :: rest) || containsSub needle rest

/-- A running OS process as seen by the reaper: its pid and the command
line reported by `ps -p <pid> -o args=`. -/
structure ProcEntry where
  pid : Nat
  cmdline : List Char
deriving Repr, DecidableEq

/-- `_kill_orphaned_ffmpeg_processes` (tools/recording.py lines 10-48):
candidates are the processes matched by `pgrep -f ffmpeg` (command line
containing `ffmpeg`); among those, exactly the ones whose command line
contains the recordings directory path receive `SIGKILL`.  Returns the
killed processes. -/
def killOrphanedFfmpeg (recordingsDir : List Char) (procs : List ProcEntry) :
    List ProcEntry :=
  (procs.filter (fun p => containsSub ("ffmpeg".toList) p.cmdline)).filter
    (fun p => containsSub recordingsDir p.cmdline)

/-- Result of the tool-layer `start_recording` wrapper: the reply message,
whether `backend.start_recording` was invoked (no capture process can be
spawned and no session state created without that call), the output
filename it was invoked with, and the orphan count reported. -/
structure ToolStartResult where
  message : String
  backendStartCalled : Bool
  outputFilename : Option String
  orphansKilled : Nat
deriving Repr, DecidableEq

/-- The fixed first line of the rejection message returned when
`window_title` is missing (tools/recording.py lines 73-81; the remaining
usage-guidance lines of the literal are elided). -/
def windowTitleRequiredError : String :=
  "ERROR: window_title parameter is REQUIRED."

/-- The tool-layer `start_recording` (tools/recording.py lines 55-111): the
orphan reaper runs first; then a missing or empty `window_title` (Python
`not window_title`) is rejected before any backend call; otherwise the
filename is defaulted from the timestamp, given a `.mp4` suffix, and
`backend.start_recording` is invoked (`backendSuccess` stands for the
success flag of its result). -/
def toolStartRecording (windowTitle : Option String) (filename : Option String)
    (timestamp : String) (killed : Nat) (backendSuccess : Bool) : ToolStartResult :=
  let titleMissing :=
    match windowTitle with
    | none => true
    | some s => s.isEmpty
  if titleMissing then
    { message := windowTitleRequiredError
      backendStartCalled := false
      outputFilename := none
      orphansKilled := killed }
  else
    let fname :=
      match filename with
      | none => "recording_" ++ timestamp ++ ".mp4"
      | some f => f
    let fname := if fname.endsWith (".mp4") then fname else fname ++ ".mp4"
    if backendSuccess then
      { message := "Recording started!"
        backendStartCalled := true
        outputFilename := some fname
        orphansKilled := killed }
    else
      { message := "Recording failed."
        backendStartCalled := true
        outputFilename := some fname
        orphansKilled := killed }

/-! ## Theorems -/

/-- C1: while a capture process is active (spawned and not yet exited —
the `Starting`/`Recording` states), `start_recording` returns the
already-recording error immediately, spawns nothing, and leaves the
session's process handle, output path, start time, log handle and
last-size counter unchanged. -/
theorem start_guard_blocks_when_active (st : RecState) (env : StartEnv)
    (h : activeRec st = true) :
    startRecording st env =
      ("Recording already in progress. Stop it first.", st, none) := by
  simp [startRecording, h]

theorem start_guard_blocks_when_active_witness :
    startRecording
        ⟨some ⟨none⟩, some ("/app/recordings/demo.mp4"), some 10, some 3, 0⟩
        ⟨true, some ("Firefox"), true, some ⟨0, 0, 1920, 1080⟩, ":99",
         "/app/recordings/take2.mp4", 4, ⟨none⟩, 11⟩ =
      ("Recording already in progress. Stop it first.",
       ⟨some ⟨none⟩, some ("/app/recordings/demo.mp4"), some 10, some 3, 0⟩,
       none) :=
  start_guard_blocks_when_active _ _ (by decide)

/-- C2: the geometry resolver returns a screen whose overlap area with the
window bounds is maximal, with crop origin the window origin made relative
to that screen and clamped componentwise to be nonnegative; when no screen
has positive-area overlap it returns screen index 1 with the window origin
clamped componentwise to be nonnegative. -/
theorem resolver_selects_max_overlap (b : WindowBounds) (screens : List Screen)
    (hne : screens ≠ []) :
    ((∃ s ∈ screens, 0 < overlapArea b s) →
      ∃ s ∈ screens,
        findScreenForWindow b screens =
          ⟨s.index, max 0 (b.x - s.x), max 0 (b.y - s.y), s.scale⟩ ∧
        ∀ t ∈ screens, overlapArea b t ≤ overlapArea b s)
  ∧ ((∀ s ∈ screens, overlapArea b s ≤ 0) →
      findScreenForWindow b screens = ⟨1, max 0 b.x, max 0 b.y, 2⟩) := by
  have hinv := findBestScreen_inv b screens [] (none, 0) ⟨rfl, by simp⟩
  simp only [List.nil_append] at hinv
  constructor
  · rintro ⟨s0, hs0, hpos⟩
    rcases hres : findBestScreen b screens (none, 0) with ⟨os, a⟩
    rw [hres] at hinv
    cases os with
    | none =>
      exact absurd hpos (by have := hinv.2 s0 hs0; omega)
    | some s =>
      obtain ⟨ha, hapos, hmem, hall⟩ := hinv
      refine ⟨s, hmem, ?_, ?_⟩
      · simp only [findScreenForWindow, hres]
      · intro t ht
        have := hall t ht
        omega
  · intro hall
    rcases hres : findBestScreen b screens (none, 0) with ⟨os, a⟩
    rw [hres] at hinv
    cases os with
    | none => simp only [findScreenForWindow, hres]
    | some s =>
      obtain ⟨ha, hapos, hmem, _⟩ := hinv
      exact absurd hapos (by have := hall s hmem; omega)

theorem resolver_selects_max_overlap_witness :
    (∃ s ∈ [Screen.mk 1 0 0 1440 900 2, Screen.mk 2 1440 0 1920 1080 1],
        0 < overlapArea ⟨1500, 50, 800, 600⟩ s) ∧
    (∃ s ∈ [Screen.mk 1 0 0 1440 900 2, Screen.mk 2 1440 0 1920 1080 1],
        findScreenForWindow ⟨1500, 50, 800, 600⟩
            [Screen.mk 1 0 0 1440 900 2, Screen.mk 2 1440 0 1920 1080 1] =
          ⟨s.index, max 0 (1500 - s.x), max 0 (50 - s.y), s.scale⟩ ∧
        ∀ t ∈ [Screen.mk 1 0 0 1440 900 2, Screen.mk 2 1440 0 1920 1080 1],
          overlapArea ⟨1500, 50, 800, 600⟩ t ≤ overlapArea ⟨1500, 50, 800, 600⟩ s) :=
  ⟨by decide,
   (resolver_selects_max_overlap ⟨1500, 50, 800, 600⟩
      [Screen.mk 1 0 0 1440 900 2, Screen.mk 2 1440 0 1920 1080 1]
      (by decide)).1 (by decide)⟩

/-- C4: the shutdown ladder issues, in order, a prefix of
quit-over-stdin, SIGINT, SIGTERM, kill; every rung has a positive bounded
wait; a rung is issued only when every earlier rung's wait observed the
process still alive; and the ladder stops at the first rung whose wait
observed the process dead (the kill rung is last and unconditional).
Aligned with `stop_recording`: with a live process the issued rungs are
exactly `stopLadder dead`. -/
theorem stop_ladder_escalation (dead : List Rung → Bool) (st : RecState) (p : Proc) :
    stopLadder dead = shutdownLadder.take (stopLadder dead).length
  ∧ 1 ≤ (stopLadder dead).length
  ∧ (stopLadder dead).length ≤ 4
  ∧ (2 ≤ (stopLadder dead).length → dead [Rung.quitStdin] = false)
  ∧ (3 ≤ (stopLadder dead).length → dead [Rung.quitStdin, Rung.sigint] = false)
  ∧ ((stopLadder dead).length = 4 →
      dead [Rung.quitStdin, Rung.sigint, Rung.sigterm] = false)
  ∧ ((stopLadder dead).length < 4 → dead (stopLadder dead) = true)
  ∧ (∀ r ∈ stopLadder dead, 0 < rungWaitTicks r)
  ∧ (st.process = some p → p.exitCode = none →
      (stopRecording st dead).2.2 = stopLadder dead) := by
  have hstop : ∀ q : Proc, st.process = some q → q.exitCode = none →
      (stopRecording st dead).2.2 = stopLadder dead := by
    intro q hq hcode
    simp [stopRecording, hq, hcode]
  cases h1 : dead [Rung.quitStdin] <;>
    cases h2 : dead [Rung.quitStdin, Rung.sigint] <;>
      cases h3 : dead [Rung.quitStdin, Rung.sigint, Rung.sigterm] <;>
        refine ⟨?_, ?_, ?_, ?_, ?_, ?_, ?_, ?_, fun hq hc => hstop p hq hc⟩ <;>
          simp [stopLadder, shutdownLadder, h1, h2, h3, rungWaitTicks]

theorem stop_ladder_escalation_witness :
    (fun l : List Rung => decide (2 ≤ l.length)) [Rung.quitStdin] = false ∧
    stopLadder (fun l => decide (2 ≤ l.length)) =
      shutdownLadder.take (stopLadder (fun l => decide (2 ≤ l.length))).length := by
  have h := stop_ladder_escalation (fun l => decide (2 ≤ l.length))
    ⟨some ⟨none⟩, some ("/app/recordings/demo.mp4"), some 10, some 3, 0⟩ ⟨none⟩
  exact ⟨by decide, h.1⟩

/-- C3 counterexample: the claim says the crop sizes are adjusted *upward*
to the nearest even number, but at window width 101 on a scale-1 screen the
macOS builder emits crop width 100 (downward), not the predicted 102; and on
the Linux path the capture origin is not even: the odd offset `3,7` is
passed through verbatim. -/
theorem crop_rounding_counterexample :
    macosCropRect ⟨0, 0, 101, 100⟩ [Screen.mk 1 0 0 1920 1080 1] = (100, 100, 0, 0)
  ∧ (if (101 : Int) % 2 = 0 then (101 : Int) else 101 + 1) = 102
  ∧ (100 : Int) ≠ 102
  ∧ ":0+3,7" ∈ hostLinuxCaptureArgs ⟨3, 7, 1920, 1080⟩ (":0") 30
  ∧ (3 : Int) % 2 ≠ 0 := by
  refine ⟨by decide, by decide, by decide, by decide, by decide⟩

/-- C3 amended: every component of the macOS crop rectangle is even, with
the size dimensions adjusted *downward* to the nearest even number (the
largest even value not above the scaled size) and the origin components
adjusted upward (the smallest even value not below the scaled origin); on
the Linux path the capture width and height are adjusted upward to the
nearest even number while the capture origin is passed through into the
`-i` argument unchanged. -/
theorem crop_evenness_amended (b : WindowBounds) (screens : List Screen)
    (display : String) (fps : Int) :
    ((macosCropRect b screens).1 % 2 = 0
     ∧ (macosCropRect b screens).2.1 % 2 = 0
     ∧ (macosCropRect b screens).2.2.1 % 2 = 0
     ∧ (macosCropRect b screens).2.2.2 % 2 = 0)
  ∧ ((macosCropRect b screens).1 ≤ b.width * (findScreenForWindow b screens).scale
     ∧ b.width * (findScreenForWindow b screens).scale - 1 ≤ (macosCropRect b screens).1)
  ∧ ((macosCropRect b screens).2.1 ≤ b.height * (findScreenForWindow b screens).scale
     ∧ b.height * (findScreenForWindow b screens).scale - 1 ≤ (macosCropRect b screens).2.1)
  ∧ ((findScreenForWindow b screens).cropX * (findScreenForWindow b screens).scale
        ≤ (macosCropRect b screens).2.2.1
     ∧ (macosCropRect b screens).2.2.1
        ≤ (findScreenForWindow b screens).cropX * (findScreenForWindow b screens).scale + 1)
  ∧ ((findScreenForWindow b screens).cropY * (findScreenForWindow b screens).scale
        ≤ (macosCropRect b screens).2.2.2
     ∧ (macosCropRect b screens).2.2.2
        ≤ (findScreenForWindow b screens).cropY * (findScreenForWindow b screens).scale + 1)
  ∧ ((linuxVideoSize b).1 % 2 = 0 ∧ (linuxVideoSize b).2 % 2 = 0
     ∧ b.width ≤ (linuxVideoSize b).1 ∧ (linuxVideoSize b).1 ≤ b.width + 1
     ∧ b.height ≤ (linuxVideoSize b).2 ∧ (linuxVideoSize b).2 ≤ b.height + 1)
  ∧ (display ++ "+" ++ toString b.x ++ "," ++ toString b.y)
      ∈ hostLinuxCaptureArgs b display fps := by
  refine ⟨?_, ?_, ?_, ?_, ?_, ?_, ?_⟩
  · simp only [macosCropRect]
    refine ⟨?_, ?_, ?_, ?_⟩ <;> split_ifs <;> omega
  · simp only [macosCropRect]
    constructor <;> split_ifs <;> omega
  · simp only [macosCropRect]
    constructor <;> split_ifs <;> omega
  · simp only [macosCropRect]
    constructor <;> split_ifs <;> omega
  · simp only [macosCropRect]
    constructor <;> split_ifs <;> omega
  · simp only [linuxVideoSize]
    refine ⟨?_, ?_, ?_, ?_, ?_, ?_⟩ <;> split_ifs <;> omega
  · simp [hostLinuxCaptureArgs]

/-- C5: the only `start_recording` path that can spawn a process (the
container/Linux window-capture path) produces an argument list that carries
the ultrafast preset, the explicit output pixel format and the fragmented
container flags, but *no* framerate flag — `get_window_capture_args`'s
Linux branch omits `-framerate` even though the success reply reports
`@ 30fps` and the parallel region/full-screen builders include it. -/
theorem container_cmd_missing_framerate :
    (startRecording ⟨none, none, none, none, 0⟩
        ⟨true, some ("Firefox"), true, some ⟨0, 0, 1920, 1080⟩, ":99",
         "/app/recordings/demo.mp4", 4, ⟨none⟩, 11⟩).2.2 =
      some ["ffmpeg", "-y", "-f", "x11grab", "-video_size", "1920x1080",
            "-i", ":99.0+0,0", "-c:v", "libx264", "-preset", "ultrafast",
            "-crf", "23", "-pix_fmt", "yuv420p",
            "-movflags", "frag_keyframe+empty_moov", "/app/recordings/demo.mp4"]
  ∧ (startRecording ⟨none, none, none, none, 0⟩
        ⟨true, some ("Firefox"), true, some ⟨0, 0, 1920, 1080⟩, ":99",
         "/app/recordings/demo.mp4", 4, ⟨none⟩, 11⟩).1 = "Recording started!"
  ∧ "-framerate" ∉
      ["ffmpeg", "-y", "-f", "x11grab", "-video_size", "1920x1080",
       "-i", ":99.0+0,0", "-c:v", "libx264", "-preset", "ultrafast",
       "-crf", "23", "-pix_fmt", "yuv420p",
       "-movflags", "frag_keyframe+empty_moov", "/app/recordings/demo.mp4"]
  ∧ "ultrafast" ∈
      ["ffmpeg", "-y", "-f", "x11grab", "-video_size", "1920x1080",
       "-i", ":99.0+0,0", "-c:v", "libx264", "-preset", "ultrafast",
       "-crf", "23", "-pix_fmt", "yuv420p",
       "-movflags", "frag_keyframe+empty_moov", "/app/recordings/demo.mp4"]
  ∧ "yuv420p" ∈
      ["ffmpeg", "-y", "-f", "x11grab", "-video_size", "1920x1080",
       "-i", ":99.0+0,0", "-c:v", "libx264", "-preset", "ultrafast",
       "-crf", "23", "-pix_fmt", "yuv420p",
       "-movflags", "frag_keyframe+empty_moov", "/app/recordings/demo.mp4"]
  ∧ "frag_keyframe+empty_moov" ∈
      ["ffmpeg", "-y", "-f", "x11grab", "-video_size", "1920x1080",
       "-i", ":99.0+0,0", "-c:v", "libx264", "-preset", "ultrafast",
       "-crf", "23", "-pix_fmt", "yuv420p",
       "-movflags", "frag_keyframe+empty_moov", "/app/recordings/demo.mp4"] := by
  refine ⟨?_, by decide, by decide, by decide, by decide, by decide⟩
  decide

/-- C6 counterexample: the claim says an unchanged size across two
consecutive polls is reported as stalled, but when both polls observe size
0 the second poll still reports the recording as growing (the code only
clears the growth flag when the previously recorded size was positive). -/
theorem status_zero_size_counterexample :
    (recordingStatus
        ((recordingStatus
            ⟨some ⟨none⟩, some ("/app/recordings/demo.mp4"), some 10, some 3, 0⟩
            (some 0)).2)
        (some 0)).1 = StatusReport.recording true 0
  ∧ StatusReport.recording true 0 ≠ StatusReport.recording false 0 := by
  exact ⟨rfl, by decide⟩

/-- C6 amended: during an active recording, when the first poll records a
*positive* size and the second poll observes a size that has not grown
beyond it, the second poll reports stalled; when the size grew, or when the
first poll recorded size 0, the second poll reports growing. -/
theorem status_health_amended (st : RecState) (p : Proc) (s t : Nat)
    (hp : st.process = some p) (halive : p.exitCode = none) :
    ((recordingStatus st (some s)).2).lastSize = s
  ∧ (0 < s → t ≤ s →
      (recordingStatus ((recordingStatus st (some s)).2) (some t)).1 =
        StatusReport.recording false t)
  ∧ (s < t →
      (recordingStatus ((recordingStatus st (some s)).2) (some t)).1 =
        StatusReport.recording true t)
  ∧ (s = 0 →
      (recordingStatus ((recordingStatus st (some s)).2) (some t)).1 =
        StatusReport.recording true t) := by
  have h1 : (recordingStatus st (some s)).2 = { st with lastSize := s } := by
    simp [recordingStatus, hp, halive]
  have h2 : ∀ u : Nat, (recordingStatus { st with lastSize := s } (some u)).1 =
      StatusReport.recording (if 0 < s ∧ u ≤ s then false else true) u := by
    intro u
    simp [recordingStatus, hp, halive]
  refine ⟨by rw [h1], ?_, ?_, ?_⟩
  · intro hs ht
    rw [h1, h2 t, if_pos ⟨hs, ht⟩]
  · intro hst
    rw [h1, h2 t, if_neg (by omega)]
  · intro hs
    rw [h1, h2 t, if_neg (by omega)]

theorem status_health_amended_witness :
    (recordingStatus
        ((recordingStatus
            ⟨some ⟨none⟩, some ("/app/recordings/demo.mp4"), some 10, some 3, 0⟩
            (some 5)).2)
        (some 5)).1 = StatusReport.recording false 5 :=
  ((status_health_amended
      ⟨some ⟨none⟩, some ("/app/recordings/demo.mp4"), some 10, some 3, 0⟩
      ⟨none⟩ 5 5 rfl rfl).2.1) (by decide) (by decide)

/-- C7 counterexample: with a capture process that exited externally, the
next `stop_recording` call returns `Recording already stopped.` and leaves
every session field exactly as it was — the process handle, output path,
start time and open log handle are *not* reset, so the controller is not in
the Idle (all-fields-cleared) configuration the claim describes. -/
theorem stop_dead_not_reset_counterexample :
    stopRecording
        ⟨some ⟨some 0⟩, some ("/app/recordings/demo.mp4"), some 5, some 7, 3⟩
        (fun _ => true) =
      ("Recording already stopped.",
       ⟨some ⟨some 0⟩, some ("/app/recordings/demo.mp4"), some 5, some 7, 3⟩, [])
  ∧ (RecState.process
        ⟨some ⟨some 0⟩, some ("/app/recordings/demo.mp4"), some 5, some 7, 3⟩ ≠
      none) := by
  exact ⟨rfl, by decide⟩

/-- C7 amended: after the capture process dies externally, the next
`recording_status` reports that no recording is alive; the next
`stop_recording` returns immediately (issuing no shutdown rung) with
`Recording already stopped.`, leaving the session fields untouched rather
than resetting them; a subsequent `start_recording` is nevertheless
possible because the start guard only rejects a live process, and with a
resolvable window it spawns a new capture process. -/
theorem dead_process_recovery (st : RecState) (p : Proc) (c : Int)
    (hp : st.process = some p) (hdead : p.exitCode = some c)
    (dead : List Rung → Bool) (stat : Option Nat) (env : StartEnv)
    (hc : env.isContainer = true) (hw : env.detectedWindow.isSome = true)
    (hwid : env.windowIdFound = true) (hb : env.bounds.isSome = true) :
    (recordingStatus st stat).1 = StatusReport.noRecording
  ∧ stopRecording st dead = ("Recording already stopped.", st, [])
  ∧ activeRec st = false
  ∧ (startRecording st env).2.2.isSome = true := by
  obtain ⟨w, hw2⟩ := Option.isSome_iff_exists.mp hw
  obtain ⟨b, hb2⟩ := Option.isSome_iff_exists.mp hb
  have hact : activeRec st = false := by
    simp [activeRec, hp, hdead]
  refine ⟨?_, ?_, hact, ?_⟩
  · cases stat <;> simp [recordingStatus, hp, hdead]
  · simp [stopRecording, hp, hdead]
  · cases hcode : env.spawnedProc.exitCode <;>
      simp [startRecording, hact, hc, hw2, getWindowCaptureArgsLinux, hwid, hb2, hcode]

theorem dead_process_recovery_witness :
    (recordingStatus
        ⟨some ⟨some 0⟩, some ("/app/recordings/demo.mp4"), some 5, some 7, 3⟩
        (some 9)).1 = StatusReport.noRecording
  ∧ stopRecording
        ⟨some ⟨some 0⟩, some ("/app/recordings/demo.mp4"), some 5, some 7, 3⟩
        (fun _ => false) =
      ("Recording already stopped.",
       ⟨some ⟨some 0⟩, some ("/app/recordings/demo.mp4"), some 5, some 7, 3⟩, [])
  ∧ activeRec
        ⟨some ⟨some 0⟩, some ("/app/recordings/demo.mp4"), some 5, some 7, 3⟩ = false
  ∧ (startRecording
        ⟨some ⟨some 0⟩, some ("/app/recordings/demo.mp4"), some 5, some 7, 3⟩
        ⟨true, some ("Firefox"), true, some ⟨0, 0, 1920, 1080⟩, ":99",
         "/app/recordings/take2.mp4", 4, ⟨none⟩, 11⟩).2.2.isSome = true :=
  dead_process_recovery
    ⟨some ⟨some 0⟩, some ("/app/recordings/demo.mp4"), some 5, some 7, 3⟩
    ⟨some 0⟩ 0 rfl rfl (fun _ => false) (some 9)
    ⟨true, some ("Firefox"), true, some ⟨0, 0, 1920, 1080⟩, ":99",
     "/app/recordings/take2.mp4", 4, ⟨none⟩, 11⟩
    rfl rfl rfl rfl

/-- C8 counterexample: `recording_status` is not read-only over the full
session state: during a live recording whose last observed size was 5, a
poll observing size 10 overwrites `_recording_last_size` with 10. -/
theorem status_mutates_state_counterexample :
    ((recordingStatus
        ⟨some ⟨none⟩, some ("/app/recordings/demo.mp4"), some 0, some 1, 5⟩
        (some 10)).2).lastSize = 10
  ∧ (10 : Nat) ≠ 5 := by
  exact ⟨rfl, by decide⟩

/-- C8 amended: `recording_status` leaves the process handle, output path,
start time and log handle unchanged in every state (only the last observed
file size may be updated), and `stop_recording` while Idle (no process
handle held) returns the non-error reply `No recording in progress.` and
changes no state. -/
theorem status_frame_amended (st : RecState) (stat : Option Nat)
    (dead : List Rung → Bool) :
    ((recordingStatus st stat).2.process = st.process
     ∧ (recordingStatus st stat).2.outputPath = st.outputPath
     ∧ (recordingStatus st stat).2.startTime = st.startTime
     ∧ (recordingStatus st stat).2.logFile = st.logFile)
  ∧ (st.process = none →
      stopRecording st dead = ("No recording in progress.", st, [])) := by
  refine ⟨?_, fun h => by simp [stopRecording, h]⟩
  rcases hp : st.process with _ | p
  · simp [recordingStatus, hp]
  · rcases hcode : p.exitCode with _ | c
    · rcases stat with _ | cur
      · simp [recordingStatus, hp, hcode]
      · simp [recordingStatus, hp, hcode]
    · simp [recordingStatus, hp, hcode]

theorem status_frame_amended_witness :
    ((recordingStatus ⟨none, none, none, none, 0⟩ none).2.process = none
     ∧ (recordingStatus ⟨none, none, none, none, 0⟩ none).2.outputPath = none
     ∧ (recordingStatus ⟨none, none, none, none, 0⟩ none).2.startTime = none
     ∧ (recordingStatus ⟨none, none, none, none, 0⟩ none).2.logFile = none)
  ∧ stopRecording ⟨none, none, none, none, 0⟩ (fun _ => false) =
      ("No recording in progress.", ⟨none, none, none, none, 0⟩, []) :=
  ⟨(status_frame_amended ⟨none, none, none, none, 0⟩ none (fun _ => false)).1,
   (status_frame_amended ⟨none, none, none, none, 0⟩ none (fun _ => false)).2 rfl⟩

/-- C9: the orphan reaper kills only processes drawn from the `pgrep -f
ffmpeg` candidates whose command line contains the managed recordings
directory path; it never signals a process whose command line does not
reference that directory. -/
theorem reaper_kills_only_matching (dir : List Char) (procs : List ProcEntry)
    (p : ProcEntry) (h : p ∈ killOrphanedFfmpeg dir procs) :
    p ∈ procs
  ∧ containsSub ("ffmpeg".toList) p.cmdline = true
  ∧ containsSub dir p.cmdline = true := by
  unfold killOrphanedFfmpeg at h
  have h2 := List.mem_filter.mp h
  have h3 := List.mem_filter.mp h2.1
  exact ⟨h3.1, h3.2, h2.2⟩

theorem reaper_kills_only_matching_witness :
    ⟨12, ("ffmpeg -y -i x /app/recordings/a.mp4").toList⟩ ∈
      killOrphanedFfmpeg (("/app/recordings").toList)
        [⟨12, ("ffmpeg -y -i x /app/recordings/a.mp4").toList⟩]
  ∧ containsSub (("/app/recordings").toList)
      (ProcEntry.cmdline ⟨12, ("ffmpeg -y -i x /app/recordings/a.mp4").toList⟩) = true :=
  ⟨by decide,
   (reaper_kills_only_matching (("/app/recordings").toList)
      [⟨12, ("ffmpeg -y -i x /app/recordings/a.mp4").toList⟩]
      ⟨12, ("ffmpeg -y -i x /app/recordings/a.mp4").toList⟩ (by decide)).2.2⟩

/-- C10: when the tool-layer `start_recording` is called with
`window_title` omitted, `None`, or empty, it returns the error message
instructing the caller to supply a window, `backend.start_recording` is
never invoked (so no capture process is spawned and no recording state is
created), and no output filename is produced. -/
theorem tool_start_requires_window_title (windowTitle filename : Option String)
    (timestamp : String) (killed : Nat) (backendSuccess : Bool)
    (h : windowTitle = none ∨ windowTitle = some ("")) :
    (toolStartRecording windowTitle filename timestamp killed backendSuccess).message
        = windowTitleRequiredError
  ∧ (toolStartRecording windowTitle filename timestamp killed
        backendSuccess).backendStartCalled = false
  ∧ (toolStartRecording windowTitle filename timestamp killed
        backendSuccess).outputFilename = none := by
  rcases h with h | h <;> subst h <;> exact ⟨rfl, rfl, rfl⟩

theorem tool_start_requires_window_title_witness :
    (toolStartRecording none (some ("scene1.mp4")) "20260101_000000" 0 true).message
        = windowTitleRequiredError
  ∧ (toolStartRecording none (some ("scene1.mp4")) "20260101_000000" 0
        true).backendStartCalled = false
  ∧ (toolStartRecording none (some ("scene1.mp4")) "20260101_000000" 0
        true).outputFilename = none :=
  tool_start_requires_window_title none (some ("scene1.mp4")) "20260101_000000" 0 true
    (Or.inl rfl)

end Getademo

